import Mathlib

/-!
Shallow embedding of `src/DosimeterCounter/src/main.c` (2D-Dosimeter-Hardware).

The firmware keeps a head position (`int32_t head_position`), an armed flag
(`bool enable_count`), three accumulation arrays of 8000 `uint16_t` cells
(`primary_count`, `secondary_count`, `tertiary_count`), and reads three
free-running hardware timer/counter channels.  A step edge runs
`Trigger_Step`; the foreground loop assembles lines from a byte stream and
hands them to `parse_gcode`.

Machine integers are modelled as `Int`/`Nat` with explicit reductions modulo
`2^16` where a `uint16_t` computation overflows, and modulo `256` where the
`uint8_t` buffer index wraps.  The three live hardware counter values are part
of the state (`hw_primary`, `hw_secondary`, `hw_tertiary`); `tc_read_cv`
reads such a value (the C code casts it to `uint16_t`, hence `% 65536`), and
`tc_sync_trigger COUNTER_TC` zeroes all three as one grouped operation.
Printed output is modelled as a list of `Response`s: `Response.text s` is one
printed line `s`, and `Response.counts vs` is the space-separated line of
counter values produced by the `printf("%PRIu16 ", ...)` loop of `M1005`.
-/

namespace Dosimeter

/-- `#define HEAD_STEPS_MAX 8000` — capacity of the count buffers. -/
def HEAD_STEPS_MAX : Nat := 8000

/-- Modulus of a `uint16_t` cell. -/
def UINT16_MOD : Nat := 65536

/-- The firmware state shared between the interrupt path and the command
loop, plus the three live hardware counter values (external free-running
counters, zeroed by `tc_sync_trigger`).  Arrays are total functions from the
index; only indices `< HEAD_STEPS_MAX` are ever used. -/
structure FirmwareState where
  head_position : Int
  enable_count : Bool
  primary_count : Nat → Nat
  secondary_count : Nat → Nat
  tertiary_count : Nat → Nat
  hw_primary : Nat
  hw_secondary : Nat
  hw_tertiary : Nat

/-- `buf[i] += (uint16_t)k` on an array of `uint16_t`: the read value is
truncated to 16 bits by the cast and the sum wraps modulo `2^16`. -/
def updateCell (f : Nat → Nat) (i : Nat) (k : Nat) : Nat → Nat :=
  fun j => if j = i then (f j + k % UINT16_MOD) % UINT16_MOD else f j

/-- The two conditional corrections after `head_position += head_step`:
`if (head_position < 0) head_position += HEAD_STEPS_MAX;` then
`if (head_position >= HEAD_STEPS_MAX) head_position -= HEAD_STEPS_MAX;`. -/
def normalizePosition (p : Int) : Int :=
  let p1 := if p < 0 then p + (HEAD_STEPS_MAX : Int) else p
  if (HEAD_STEPS_MAX : Int) ≤ p1 then p1 - (HEAD_STEPS_MAX : Int) else p1

/-- `Trigger_Step` (main.c:43): `dir` is the sampled direction pin
(`pio_get ... COUNTER_DIR_PIN`), giving `head_step = dir ? 1 : -1`.  While
armed each channel's live counter is read (cast to `uint16_t`) and added into
the accumulator cell at the current (pre-step) head position, then
`tc_sync_trigger` zeroes all three hardware counters; afterwards the position
is stepped and normalized. -/
def Trigger_Step (dir : Bool) (s : FirmwareState) : FirmwareState :=
  let head_step : Int := if dir then 1 else -1
  let s1 :=
    if s.enable_count then
      { s with
        primary_count := updateCell s.primary_count s.head_position.toNat s.hw_primary,
        secondary_count := updateCell s.secondary_count s.head_position.toNat s.hw_secondary,
        tertiary_count := updateCell s.tertiary_count s.head_position.toNat s.hw_tertiary,
        hw_primary := 0, hw_secondary := 0, hw_tertiary := 0 }
    else s
  { s1 with head_position := normalizePosition (s1.head_position + head_step) }

/-- Folding a sequence of step events (directions) through `Trigger_Step`. -/
def stepFold (dirs : List Bool) (s : FirmwareState) : FirmwareState :=
  dirs.foldl (fun st d => Trigger_Step d st) s

/-- One printed line of output: `text s` is a `printf("...\n")` line,
`counts vs` is the space-separated counter-value line of the `M1005` loop. -/
inductive Response where
  | text (s : String)
  | counts (vals : List Nat)
deriving DecidableEq

/-- `isspace` of the C locale, as used by `sscanf` whitespace skipping. -/
def isSpaceC (c : Char) : Bool :=
  c = ' ' || c = '\t' || c = '\n' || c = '\x0b' || c = '\x0c' || c = '\r'

/-- Decimal value of a digit string. -/
def digitsVal (ds : List Char) : Nat :=
  ds.foldl (fun a c => 10 * a + (c.toNat - 48)) 0

/-- One `%d` conversion of `sscanf`: skip whitespace, accept an optional
sign, then require at least one digit; on success return the value and the
remaining input, on matching failure return `none`. -/
def scanInt (cs : List Char) : Option (Int × List Char) :=
  let cs1 := cs.dropWhile isSpaceC
  match cs1 with
  | '-' :: rest =>
      if (rest.takeWhile Char.isDigit) = [] then none
      else some (-(digitsVal (rest.takeWhile Char.isDigit) : Int), rest.dropWhile Char.isDigit)
  | '+' :: rest =>
      if (rest.takeWhile Char.isDigit) = [] then none
      else some ((digitsVal (rest.takeWhile Char.isDigit) : Int), rest.dropWhile Char.isDigit)
  | _ =>
      if (cs1.takeWhile Char.isDigit) = [] then none
      else some ((digitsVal (cs1.takeWhile Char.isDigit) : Int), cs1.dropWhile Char.isDigit)

/-- `sscanf(line, "M1005 %d %d %d", ...) == 3`, applied to the characters
after the literal `M1005`: three `%d` conversions in sequence; `none` when
fewer than three succeed. -/
def scan3Ints (cs : List Char) : Option (Int × Int × Int) :=
  match scanInt cs with
  | none => none
  | some (a, r1) =>
    match scanInt r1 with
    | none => none
    | some (b, r2) =>
      match scanInt r2 with
      | none => none
      | some (c, _) => some (a, b, c)

/-- `counts[3] = { primary_count, secondary_count, tertiary_count }` indexed
by the (already validated) channel argument. -/
def channelCounts (s : FirmwareState) (channel : Int) : Nat → Nat :=
  if channel = 0 then s.primary_count
  else if channel = 1 then s.secondary_count
  else s.tertiary_count

/-- The `M1005` output loop `for (i = start; i <= end; i++)`: the list of
cell values at indices `start..stop` inclusive. -/
def readCounts (f : Nat → Nat) (start stop : Int) : List Nat :=
  (List.range' start.toNat (stop.toNat + 1 - start.toNat)).map f

/-- `parse_gcode` (main.c:65): dispatch one line, returning the new state and
the printed lines.  `stop` stands for the C variable `end` (a reserved word
here).  The `M1005` case is guarded by `strncmp(line, "M1005", 5) == 0`,
i.e. the first five characters of the line (fewer only if the line is
shorter, in which case the comparison fails at the terminator) equal
`M1005`; this is exactly `line.toList.take 5 = "M1005".toList`. -/
def parse_gcode (line : String) (s : FirmwareState) : FirmwareState × List Response :=
  if line = "M1001" then
    (s, [.text "ok", .text (toString s.head_position)])
  else if line = "M1002" then
    ({ s with head_position := 0 }, [.text "ok"])
  else if line = "M1003" then
    if s.enable_count then
      (s, [.text "error: counter is already active"])
    else
      ({ s with hw_primary := 0, hw_secondary := 0, hw_tertiary := 0, enable_count := true },
       [.text "ok"])
  else if line = "M1004" then
    if !s.enable_count then
      (s, [.text "error: counter is not active"])
    else
      ({ s with enable_count := false }, [.text "ok"])
  else if line.toList.take 5 = "M1005".toList then
    if s.enable_count then
      (s, [.text "error: cannot read counter while it is active"])
    else
      match scan3Ints (line.toList.drop 5) with
      | none => (s, [.text "error: read command requires three arguments"])
      | some (channel, start, stop) =>
        if channel < 0 || 2 < channel then
          (s, [.text "error: invalid counter"])
        else if start < 0 || (HEAD_STEPS_MAX : Int) ≤ start || stop < 0 ||
            (HEAD_STEPS_MAX : Int) ≤ stop || stop < start then
          (s, [.text "error: invalid column range"])
        else
          (s, [.text "ok", .counts (readCounts (channelCounts s channel) start stop),
               .text "ok"])
  else if line = "M1006" then
    if s.enable_count then
      (s, [.text "error: cannot reset counter while it is active"])
    else
      ({ s with primary_count := fun _ => 0, secondary_count := fun _ => 0,
                tertiary_count := fun _ => 0 },
       [.text "ok"])
  else
    (s, [.text ("error: unknown command '" ++ line ++ "'")])

/-- State of the foreground line assembler: the 256-byte `char linebuf[256]`
and the `uint8_t buflen` fill index. -/
structure LineState where
  linebuf : List Char
  buflen : Nat

/-- The working buffer at entry to the main loop (contents unread until
written; `buflen = 0`). -/
def initLineState : LineState :=
  { linebuf := List.replicate 256 (Char.ofNat 0), buflen := 0 }

/-- The C string handed to `parse_gcode`: the buffer characters up to the
first NUL terminator. -/
def bufLine (buf : List Char) : String :=
  String.mk (buf.takeWhile (fun c => c ≠ Char.ofNat 0))

/-- One iteration of the receive loop (main.c:239-254): warn when
`buflen == 255`, then consume the byte; a CR or LF terminates the buffer with
NUL, dispatches it to `parse_gcode` and resets `buflen`; any other byte is
appended with the `uint8_t` index wrapping modulo 256. -/
def processByte (fw : FirmwareState) (ls : LineState) (c : Char) :
    FirmwareState × LineState × List Response :=
  let warn : List Response :=
    if ls.buflen = 255 then
      [.text "WARNING: input buffer full.  Buffered data have been discarded."]
    else []
  if c = '\n' || c = '\r' then
    let buf := ls.linebuf.set ls.buflen (Char.ofNat 0)
    let r := parse_gcode (bufLine buf) fw
    (r.1, { linebuf := buf, buflen := 0 }, warn ++ r.2)
  else
    (fw, { linebuf := ls.linebuf.set ls.buflen c, buflen := (ls.buflen + 1) % 256 }, warn)

/-- Feeding a whole byte sequence through the receive loop, collecting all
printed lines. -/
def processBytes (fw : FirmwareState) (ls : LineState) (cs : List Char) :
    FirmwareState × LineState × List Response :=
  match cs with
  | [] => (fw, ls, [])
  | c :: rest =>
    let r1 := processByte fw ls c
    let r2 := processBytes r1.1 r1.2.1 rest
    (r2.1, r2.2.1, r1.2.2 ++ r2.2.2)

/-! Sample concrete states used by witnesses and counterexamples. -/

/-- A freshly reset, disarmed state: head at 0, all cells and counters 0. -/
def fw0 : FirmwareState :=
  { head_position := 0, enable_count := false,
    primary_count := fun _ => 0, secondary_count := fun _ => 0, tertiary_count := fun _ => 0,
    hw_primary := 0, hw_secondary := 0, hw_tertiary := 0 }

/-- An armed state with nonzero cells and pending hardware counts. -/
def armState : FirmwareState :=
  { head_position := 3, enable_count := true,
    primary_count := fun _ => 10, secondary_count := fun _ => 20, tertiary_count := fun _ => 30,
    hw_primary := 5, hw_secondary := 6, hw_tertiary := 7 }

/-- A disarmed state with nonzero cells and pending hardware counts. -/
def disState : FirmwareState :=
  { head_position := 5, enable_count := false,
    primary_count := fun _ => 7, secondary_count := fun _ => 8, tertiary_count := fun _ => 9,
    hw_primary := 4, hw_secondary := 3, hw_tertiary := 2 }

/-- An armed state whose primary cell at the head position is already at the
`uint16_t` maximum, with one pulse pending on the primary channel. -/
def satState : FirmwareState :=
  { head_position := 0, enable_count := true,
    primary_count := fun _ => 65535, secondary_count := fun _ => 0, tertiary_count := fun _ => 0,
    hw_primary := 1, hw_secondary := 0, hw_tertiary := 0 }

/-! Helper lemmas about the position update. -/

theorem head_Trigger_Step (d : Bool) (s : FirmwareState) :
    (Trigger_Step d s).head_position =
      normalizePosition (s.head_position + if d then 1 else -1) := by
  cases h : s.enable_count <;> simp [Trigger_Step, h]

theorem normalizePosition_eq_emod (p : Int) (h1 : -1 ≤ p) (h2 : p ≤ 8000) :
    normalizePosition p = p % 8000 := by
  simp only [normalizePosition, HEAD_STEPS_MAX]
  split_ifs <;> omega

theorem normalizePosition_range (p : Int) (h1 : -1 ≤ p) (h2 : p ≤ 8000) :
    0 ≤ normalizePosition p ∧ normalizePosition p < 8000 := by
  simp only [normalizePosition, HEAD_STEPS_MAX]
  split_ifs <;> omega

theorem head_range_step (d : Bool) (s : FirmwareState)
    (h1 : 0 ≤ s.head_position) (h2 : s.head_position < 8000) :
    0 ≤ (Trigger_Step d s).head_position ∧ (Trigger_Step d s).head_position < 8000 := by
  rw [head_Trigger_Step]
  exact normalizePosition_range _ (by split <;> omega) (by split <;> omega)

theorem stepFold_range (dirs : List Bool) (s : FirmwareState)
    (h1 : 0 ≤ s.head_position) (h2 : s.head_position < 8000) :
    0 ≤ (stepFold dirs s).head_position ∧ (stepFold dirs s).head_position < 8000 := by
  induction dirs generalizing s with
  | nil => exact ⟨h1, h2⟩
  | cons d rest ih =>
    have hs := head_range_step d s h1 h2
    simpa [stepFold] using ih (Trigger_Step d s) hs.1 hs.2

theorem stepFold_replicate_head (k : Nat) (d : Bool) (s : FirmwareState)
    (h1 : 0 ≤ s.head_position) (h2 : s.head_position < 8000) :
    (stepFold (List.replicate k d) s).head_position =
      (s.head_position + (k : Int) * (if d then 1 else -1)) % 8000 := by
  induction k generalizing s with
  | zero => simp [stepFold]; omega
  | succ n ih =>
    rw [List.replicate_succ]
    have hs := head_range_step d s h1 h2
    have hstep : (Trigger_Step d s).head_position =
        (s.head_position + (if d then 1 else -1)) % 8000 := by
      rw [head_Trigger_Step,
        normalizePosition_eq_emod _ (by split <;> omega) (by split <;> omega)]
    have hcons : stepFold (d :: List.replicate n d) s =
        stepFold (List.replicate n d) (Trigger_Step d s) := by
      simp [stepFold]
    rw [hcons, ih (Trigger_Step d s) hs.1 hs.2, hstep]
    cases d <;> simp <;> omega

/-! Claim theorems. -/

/-- C1 counterexample: the claim predicts a saturating add — with the cell at
65535 and 1 pulse pending, the cell should stay at `65535 + min 1 0 = 65535`.
The code instead performs a wrapping `uint16_t +=`, and the cell becomes 0. -/
theorem C1_counterexample :
    (Trigger_Step true satState).primary_count 0 = 0 ∧
    (Trigger_Step true satState).primary_count 0 ≠
      satState.primary_count 0 +
        min satState.hw_primary (65535 - satState.primary_count 0) := by
  decide

/-- C1 (amended): while armed, the step-edge addition into each channel's
accumulator cell at the pre-step head position is a wrapping 16-bit addition:
the cell becomes `(old + k mod 2^16) mod 2^16`, wrapping past the maximum
representable value instead of clamping to it. -/
theorem C1_wrapping_add (s : FirmwareState) (d : Bool)
    (harm : s.enable_count = true) :
    (Trigger_Step d s).primary_count s.head_position.toNat =
      (s.primary_count s.head_position.toNat + s.hw_primary % 65536) % 65536 ∧
    (Trigger_Step d s).secondary_count s.head_position.toNat =
      (s.secondary_count s.head_position.toNat + s.hw_secondary % 65536) % 65536 ∧
    (Trigger_Step d s).tertiary_count s.head_position.toNat =
      (s.tertiary_count s.head_position.toNat + s.hw_tertiary % 65536) % 65536 := by
  simp [Trigger_Step, harm, updateCell, UINT16_MOD]

/-- Witness for C1_wrapping_add at the armed sample state. -/
theorem C1_wrapping_add_witness :
    armState.enable_count = true ∧
    (Trigger_Step true armState).primary_count 3 = 15 := by
  have h := C1_wrapping_add armState true rfl
  exact ⟨rfl, by simpa using h.1⟩

/-- C2: on a step edge while armed, each channel's live hardware reading is
added into that channel's accumulator cell at the pre-step head position (all
other cells unchanged), all three hardware counters are retriggered to zero
as one grouped operation, and the head position afterwards is the pre-step
position plus 1 (forward) or minus 1 (reverse), normalized by wraparound. -/
theorem C2_step_ordering (s : FirmwareState) (d : Bool)
    (harm : s.enable_count = true)
    (h1 : 0 ≤ s.head_position) (h2 : s.head_position < 8000) :
    ((Trigger_Step d s).primary_count s.head_position.toNat =
       (s.primary_count s.head_position.toNat + s.hw_primary % 65536) % 65536 ∧
     (Trigger_Step d s).secondary_count s.head_position.toNat =
       (s.secondary_count s.head_position.toNat + s.hw_secondary % 65536) % 65536 ∧
     (Trigger_Step d s).tertiary_count s.head_position.toNat =
       (s.tertiary_count s.head_position.toNat + s.hw_tertiary % 65536) % 65536) ∧
    (∀ j, j ≠ s.head_position.toNat →
       (Trigger_Step d s).primary_count j = s.primary_count j ∧
       (Trigger_Step d s).secondary_count j = s.secondary_count j ∧
       (Trigger_Step d s).tertiary_count j = s.tertiary_count j) ∧
    ((Trigger_Step d s).hw_primary = 0 ∧ (Trigger_Step d s).hw_secondary = 0 ∧
     (Trigger_Step d s).hw_tertiary = 0) ∧
    (Trigger_Step d s).head_position =
      (s.head_position + (if d then 1 else -1)) % 8000 := by
  refine ⟨?_, ?_, ?_, ?_⟩
  · simp [Trigger_Step, harm, updateCell, UINT16_MOD]
  · intro j hj
    simp [Trigger_Step, harm, updateCell, hj]
  · simp [Trigger_Step, harm]
  · rw [head_Trigger_Step,
      normalizePosition_eq_emod _ (by split <;> omega) (by split <;> omega)]

/-- Witness for C2_step_ordering at the armed sample state. -/
theorem C2_step_ordering_witness :
    armState.enable_count = true ∧
    0 ≤ armState.head_position ∧ armState.head_position < 8000 ∧
    (Trigger_Step true armState).primary_count 3 = 15 ∧
    (Trigger_Step true armState).primary_count 7 = 10 ∧
    (Trigger_Step true armState).hw_primary = 0 ∧
    (Trigger_Step true armState).head_position = 4 := by
  have h := C2_step_ordering armState true rfl (by decide) (by decide)
  refine ⟨rfl, by decide, by decide, by simpa using h.1.1,
    by simpa using (h.2.1 7 (by decide)).1, h.2.2.1.1, by simpa using h.2.2.2⟩

/-- C3: starting from any head position in `[0, 8000)`, after any sequence
of forward/reverse step events the head position is still in `[0, 8000)`. -/
theorem C3_head_position_invariant (dirs : List Bool) (s : FirmwareState)
    (h1 : 0 ≤ s.head_position) (h2 : s.head_position < 8000) :
    0 ≤ (stepFold dirs s).head_position ∧ (stepFold dirs s).head_position < 8000 :=
  stepFold_range dirs s h1 h2

/-- Witness for C3_head_position_invariant on a concrete event sequence. -/
theorem C3_head_position_invariant_witness :
    0 ≤ fw0.head_position ∧ fw0.head_position < 8000 ∧
    (0 ≤ (stepFold [false, false, true] fw0).head_position ∧
     (stepFold [false, false, true] fw0).head_position < 8000) := by
  exact ⟨by decide, by decide,
    C3_head_position_invariant [false, false, true] fw0 (by decide) (by decide)⟩

/-- C4: while disarmed, a step edge changes no accumulator cell and neither
reads nor retriggers the hardware counters (they are left untouched), yet the
head position is still stepped and normalized exactly as when armed. -/
theorem C4_disarmed_frame (s : FirmwareState) (d : Bool)
    (h : s.enable_count = false) :
    (Trigger_Step d s).primary_count = s.primary_count ∧
    (Trigger_Step d s).secondary_count = s.secondary_count ∧
    (Trigger_Step d s).tertiary_count = s.tertiary_count ∧
    (Trigger_Step d s).hw_primary = s.hw_primary ∧
    (Trigger_Step d s).hw_secondary = s.hw_secondary ∧
    (Trigger_Step d s).hw_tertiary = s.hw_tertiary ∧
    (Trigger_Step d s).head_position =
      normalizePosition (s.head_position + if d then 1 else -1) := by
  simp [Trigger_Step, h]

/-- Witness for C4_disarmed_frame at the disarmed sample state. -/
theorem C4_disarmed_frame_witness :
    disState.enable_count = false ∧
    (Trigger_Step true disState).primary_count = disState.primary_count ∧
    (Trigger_Step true disState).hw_primary = disState.hw_primary ∧
    (Trigger_Step true disState).head_position = 6 := by
  have h := C4_disarmed_frame disState true rfl
  exact ⟨rfl, h.1, h.2.2.2.1, by simpa using h.2.2.2.2.2.2⟩

/-- C9: from any head position in `[0, 8000)`, 8000 consecutive forward
steps return the head to the same position, and likewise 8000 consecutive
reverse steps. -/
theorem C9_period (s : FirmwareState)
    (h1 : 0 ≤ s.head_position) (h2 : s.head_position < 8000) :
    (stepFold (List.replicate 8000 true) s).head_position = s.head_position ∧
    (stepFold (List.replicate 8000 false) s).head_position = s.head_position := by
  constructor <;> rw [stepFold_replicate_head 8000 _ s h1 h2] <;> simp <;> omega

/-- Witness for C9_period at the disarmed sample state (head at 5). -/
theorem C9_period_witness :
    0 ≤ disState.head_position ∧ disState.head_position < 8000 ∧
    ((stepFold (List.replicate 8000 true) disState).head_position =
       disState.head_position ∧
     (stepFold (List.replicate 8000 false) disState).head_position =
       disState.head_position) := by
  exact ⟨by decide, by decide, C9_period disState (by decide) (by decide)⟩

/-! Helper lemmas for the command parser. -/

theorem M1005_pre_ne (line : String)
    (hpre : line.toList.take 5 = "M1005".toList) :
    line ≠ "M1001" ∧ line ≠ "M1002" ∧ line ≠ "M1003" ∧ line ≠ "M1004" := by
  refine ⟨?_, ?_, ?_, ?_⟩ <;> rintro rfl <;> exact absurd hpre (by decide)

theorem parse_M1005_ok (s : FirmwareState) (line : String) (channel start stop : Int)
    (hdis : s.enable_count = false)
    (hpre : line.toList.take 5 = "M1005".toList)
    (hscan : scan3Ints (line.toList.drop 5) = some (channel, start, stop))
    (hc0 : 0 ≤ channel) (hc2 : channel ≤ 2)
    (hs0 : 0 ≤ start) (hse : start ≤ stop) (he : stop < 8000) :
    parse_gcode line s =
      (s, [.text "ok", .counts (readCounts (channelCounts s channel) start stop),
           .text "ok"]) := by
  obtain ⟨h1, h2, h3, h4⟩ := M1005_pre_ne line hpre
  have hpre2 : List.take 5 line.data = ['M', '1', '0', '0', '5'] := by simpa using hpre
  have hscan2 : scan3Ints (List.drop 5 line.data) = some (channel, start, stop) := by
    simpa using hscan
  simp [parse_gcode, hdis, h1, h2, h3, h4, hpre2, hscan2, HEAD_STEPS_MAX,
    not_lt.mpr hc0, not_lt.mpr hc2, not_lt.mpr hs0, not_lt.mpr hse,
    not_le.mpr (by omega : start < 8000), not_le.mpr he,
    not_lt.mpr (by omega : (0 : Int) ≤ stop)]

theorem readCounts_const_zero :
    readCounts (fun _ => 0) 0 7999 = List.replicate 8000 0 := by
  simp only [readCounts, List.map_const', List.length_range']
  norm_num
  omega

theorem bufLine_set_zero (buf : List Char) :
    bufLine (buf.set 0 (Char.ofNat 0)) = "" := by
  cases buf <;> simp [bufLine]

/-- C5: state-conflict commands are rejected with an `error: `-prefixed line
and leave the whole state unchanged — M1003 while armed, M1004 while
disarmed, and any M1005 or M1006 line while armed; a successful M1003
retriggers all hardware counters and sets armed, and a successful M1004
clears armed and leaves the accumulated data untouched. -/
theorem C5_state_conflicts (s : FirmwareState) (line : String)
    (hpre : line.toList.take 5 = "M1005".toList) :
    (s.enable_count = true →
       parse_gcode "M1003" s = (s, [.text "error: counter is already active"]) ∧
       parse_gcode "M1006" s =
         (s, [.text "error: cannot reset counter while it is active"]) ∧
       parse_gcode line s =
         (s, [.text "error: cannot read counter while it is active"]) ∧
       parse_gcode "M1004" s = ({ s with enable_count := false }, [.text "ok"])) ∧
    (s.enable_count = false →
       parse_gcode "M1004" s = (s, [.text "error: counter is not active"]) ∧
       parse_gcode "M1003" s =
         ({ s with hw_primary := 0, hw_secondary := 0, hw_tertiary := 0,
                   enable_count := true },
          [.text "ok"])) := by
  obtain ⟨h1, h2, h3, h4⟩ := M1005_pre_ne line hpre
  have hpre2 : List.take 5 line.data = ['M', '1', '0', '0', '5'] := by simpa using hpre
  constructor
  · intro harm
    refine ⟨?_, ?_, ?_, ?_⟩ <;> simp [parse_gcode, harm, h1, h2, h3, h4, hpre2]
  · intro hdis
    constructor <;> simp [parse_gcode, hdis]

/-- Witness for C5_state_conflicts at the armed and disarmed sample states. -/
theorem C5_state_conflicts_witness :
    ("M1005 0 0 0".toList.take 5 = "M1005".toList) ∧
    armState.enable_count = true ∧
    parse_gcode "M1003" armState =
      (armState, [.text "error: counter is already active"]) ∧
    parse_gcode "M1005 0 0 0" armState =
      (armState, [.text "error: cannot read counter while it is active"]) ∧
    parse_gcode "M1006" armState =
      (armState, [.text "error: cannot reset counter while it is active"]) ∧
    disState.enable_count = false ∧
    parse_gcode "M1004" disState =
      (disState, [.text "error: counter is not active"]) := by
  have ha := C5_state_conflicts armState "M1005 0 0 0" (by decide)
  have hd := C5_state_conflicts disState "M1005 0 0 0" (by decide)
  exact ⟨by decide, rfl, (ha.1 rfl).1, (ha.1 rfl).2.2.1, (ha.1 rfl).2.1, rfl,
    (hd.2 rfl).1⟩

/-- C6: while disarmed, an M1005 line that does not parse as three signed
integers answers the three-arguments error; a parsed channel outside
`{0,1,2}` answers the invalid-counter error; a parsed start/end outside
`[0, 8000)` or with start > end answers the invalid-column-range error; and
in every such failure the state is returned unchanged. -/
theorem C6_M1005_validation (s : FirmwareState) (line : String)
    (hdis : s.enable_count = false)
    (hpre : line.toList.take 5 = "M1005".toList) :
    (scan3Ints (line.toList.drop 5) = none →
       parse_gcode line s =
         (s, [.text "error: read command requires three arguments"])) ∧
    (∀ channel start stop,
       scan3Ints (line.toList.drop 5) = some (channel, start, stop) →
       ((channel < 0 ∨ 2 < channel) →
          parse_gcode line s = (s, [.text "error: invalid counter"])) ∧
       (0 ≤ channel → channel ≤ 2 →
          (start < 0 ∨ 8000 ≤ start ∨ stop < 0 ∨ 8000 ≤ stop ∨ stop < start) →
          parse_gcode line s = (s, [.text "error: invalid column range"]))) := by
  obtain ⟨h1, h2, h3, h4⟩ := M1005_pre_ne line hpre
  have hpre2 : List.take 5 line.data = ['M', '1', '0', '0', '5'] := by simpa using hpre
  constructor
  · intro hscan
    have hscan2 : scan3Ints (List.drop 5 line.data) = none := by simpa using hscan
    simp [parse_gcode, hdis, h1, h2, h3, h4, hpre2, hscan2]
  · intro channel start stop hscan
    have hscan2 : scan3Ints (List.drop 5 line.data) = some (channel, start, stop) := by
      simpa using hscan
    constructor
    · intro hch
      rcases hch with hc | hc <;>
        simp [parse_gcode, hdis, h1, h2, h3, h4, hpre2, hscan2, hc]
    · intro hc0 hc2 hrange
      rcases hrange with h | h | h | h | h <;>
        simp [parse_gcode, hdis, h1, h2, h3, h4, hpre2, hscan2, h, HEAD_STEPS_MAX,
          not_lt.mpr hc0, not_lt.mpr hc2]

/-- Witness for C6_M1005_validation: a malformed argument list, an invalid
channel, and an inverted column range, each rejected without a state
change. -/
theorem C6_M1005_validation_witness :
    disState.enable_count = false ∧
    ("M1005 x".toList.take 5 = "M1005".toList) ∧
    scan3Ints ("M1005 x".toList.drop 5) = none ∧
    parse_gcode "M1005 x" disState =
      (disState, [.text "error: read command requires three arguments"]) ∧
    scan3Ints ("M1005 9 0 0".toList.drop 5) = some (9, 0, 0) ∧
    parse_gcode "M1005 9 0 0" disState =
      (disState, [.text "error: invalid counter"]) ∧
    scan3Ints ("M1005 0 5 2".toList.drop 5) = some (0, 5, 2) ∧
    parse_gcode "M1005 0 5 2" disState =
      (disState, [.text "error: invalid column range"]) := by
  have hx := C6_M1005_validation disState "M1005 x" rfl (by decide)
  have h9 := C6_M1005_validation disState "M1005 9 0 0" rfl (by decide)
  have hr := C6_M1005_validation disState "M1005 0 5 2" rfl (by decide)
  exact ⟨rfl, by decide, by decide, hx.1 (by decide), by decide,
    (h9.2 9 0 0 (by decide)).1 (Or.inr (by norm_num)), by decide,
    (hr.2 0 5 2 (by decide)).2 (by norm_num) (by norm_num)
      (Or.inr (Or.inr (Or.inr (Or.inr (by norm_num)))))⟩

/-- C8: while disarmed, M1006 zeroes every accumulator cell and answers
`ok`; an immediately following `M1005 c 0 7999` for each valid channel
`c ∈ {0,1,2}` answers `ok`, then 8000 zero counts, then `ok`. -/
theorem C8_reset_then_read (s : FirmwareState) (hdis : s.enable_count = false) :
    (parse_gcode "M1006" s).2 = [.text "ok"] ∧
    parse_gcode "M1005 0 0 7999" (parse_gcode "M1006" s).1 =
      ((parse_gcode "M1006" s).1,
       [.text "ok", .counts (List.replicate 8000 0), .text "ok"]) ∧
    parse_gcode "M1005 1 0 7999" (parse_gcode "M1006" s).1 =
      ((parse_gcode "M1006" s).1,
       [.text "ok", .counts (List.replicate 8000 0), .text "ok"]) ∧
    parse_gcode "M1005 2 0 7999" (parse_gcode "M1006" s).1 =
      ((parse_gcode "M1006" s).1,
       [.text "ok", .counts (List.replicate 8000 0), .text "ok"]) := by
  have hM1006 : parse_gcode "M1006" s =
      ({ s with primary_count := fun _ => 0, secondary_count := fun _ => 0,
                tertiary_count := fun _ => 0 }, [.text "ok"]) := by
    simp [parse_gcode, hdis]
  have hread : ∀ c : Int, 0 ≤ c → c ≤ 2 → ∀ line : String,
      line.toList.take 5 = "M1005".toList →
      scan3Ints (line.toList.drop 5) = some (c, 0, 7999) →
      parse_gcode line (parse_gcode "M1006" s).1 =
        ((parse_gcode "M1006" s).1,
         [.text "ok", .counts (List.replicate 8000 0), .text "ok"]) := by
    intro c hc0 hc2 line hpre hscan
    rw [hM1006]
    dsimp only
    rw [parse_M1005_ok
      ({ s with primary_count := fun _ => 0, secondary_count := fun _ => 0,
                tertiary_count := fun _ => 0 })
      line c 0 7999 hdis hpre hscan hc0 hc2 (by omega) (by omega) (by omega)]
    have hcc : channelCounts
        ({ s with primary_count := fun _ => 0, secondary_count := fun _ => 0,
                  tertiary_count := fun _ => 0 } : FirmwareState) c = fun _ => 0 := by
      simp only [channelCounts]
      split_ifs <;> rfl
    rw [hcc, readCounts_const_zero]
  exact ⟨by rw [hM1006], hread 0 (by omega) (by omega) _ (by decide) (by decide),
    hread 1 (by omega) (by omega) _ (by decide) (by decide),
    hread 2 (by omega) (by omega) _ (by decide) (by decide)⟩

/-- Witness for C8_reset_then_read at the disarmed sample state (whose cells
are nonzero before the reset). -/
theorem C8_reset_then_read_witness :
    disState.enable_count = false ∧
    (parse_gcode "M1006" disState).2 = [.text "ok"] ∧
    parse_gcode "M1005 0 0 7999" (parse_gcode "M1006" disState).1 =
      ((parse_gcode "M1006" disState).1,
       [.text "ok", .counts (List.replicate 8000 0), .text "ok"]) := by
  have h := C8_reset_then_read disState rfl
  exact ⟨rfl, h.1, h.2.1⟩

set_option maxRecDepth 4000 in
/-- C7 counterexample: 256 bytes of `A` followed by `M1001` and LF.  The
buffer index wraps after the warning, the tail `M1001` refills the buffer
from index 0, and on the terminator the parser receives and answers it as a
command (`ok`, then the position) — the claim says the parser never receives
the truncated tail as a spurious command. -/
theorem C7_counterexample :
    (processBytes fw0 initLineState
        (List.replicate 256 'A' ++ "M1001\n".toList)).2.2 =
      [.text "WARNING: input buffer full.  Buffered data have been discarded.",
       .text "ok", .text "0"] := by
  decide

/-- C7 (amended): when a byte arrives with the buffer index at its bound
(255), exactly one warning line is emitted for that byte and the index wraps
to 0 rather than growing; the overflowing bytes are not dropped but
overwrite the buffer from the start, so the truncated tail of the line is
later delivered to the command parser as a command. -/
theorem C7_overflow_wrap (fw : FirmwareState) (ls : LineState) (c : Char)
    (hfull : ls.buflen = 255) (hn : c ≠ '\n') (hr : c ≠ '\r') :
    processByte fw ls c =
      (fw, { linebuf := ls.linebuf.set 255 c, buflen := 0 },
       [.text "WARNING: input buffer full.  Buffered data have been discarded."]) := by
  simp [processByte, hfull, hn, hr]

/-- A line-assembler state whose buffer is full (index at 255). -/
def ovState : LineState :=
  { linebuf := List.replicate 256 'A', buflen := 255 }

/-- Witness for C7_overflow_wrap at a concrete full buffer. -/
theorem C7_overflow_wrap_witness :
    ovState.buflen = 255 ∧ ('B' ≠ '\n') ∧ ('B' ≠ '\r') ∧
    processByte fw0 ovState 'B' =
      (fw0, { linebuf := ovState.linebuf.set 255 'B', buflen := 0 },
       [.text "WARNING: input buffer full.  Buffered data have been discarded."]) :=
  ⟨rfl, by decide, by decide, C7_overflow_wrap fw0 ovState 'B' rfl (by decide) (by decide)⟩

/-- C10: a CR or LF arriving while the working buffer is empty dispatches
the empty line to the parser, which answers `error: unknown command ''`; the
firmware state is unchanged.  In particular the LF of a CRLF pair, arriving
just after the CR dispatched the line and cleared the buffer, produces one
extra unknown-command error line. -/
theorem C10_empty_line (fw : FirmwareState) (ls : LineState) (c : Char)
    (hlen : ls.buflen = 0) (hc : c = '\n' ∨ c = '\r') :
    processByte fw ls c =
      (fw, { linebuf := ls.linebuf.set 0 (Char.ofNat 0), buflen := 0 },
       [.text "error: unknown command ''"]) := by
  rcases hc with rfl | rfl <;>
    simp [processByte, hlen, bufLine_set_zero, parse_gcode]

/-- Witness for C10_empty_line: an LF with the buffer empty. -/
theorem C10_empty_line_witness :
    initLineState.buflen = 0 ∧ ('\n' = '\n' ∨ '\n' = '\r') ∧
    processByte fw0 initLineState '\n' =
      (fw0, { linebuf := initLineState.linebuf.set 0 (Char.ofNat 0), buflen := 0 },
       [.text "error: unknown command ''"]) :=
  ⟨rfl, Or.inl rfl, C10_empty_line fw0 initLineState '\n' rfl (Or.inl rfl)⟩

end Dosimeter
